import Mathlib

set_option maxHeartbeats 1600000
set_option maxRecDepth 8192

/-!
Shallow embedding of the GoogleAppsReporting repository: reporting.py (a
client for the Google Apps Reporting API) and data.py (a stale-account scan
over the CSV report).  Pure string and date manipulation is translated
directly; network posts are parametrized by an explicit transport outcome;
Python exceptions become explicit result values.
-/

/-- Python s[a:b] slicing for nonnegative bounds. -/
def strSlice (s : String) (a b : Nat) : String :=
  String.mk ((s.data.drop a).take (b - a))

/-- Python str.split(sep) with a single-character separator and no limit. -/
def splitOnChar (sep : Char) : List Char → List (List Char)
  | [] => [[]]
  | c :: rest =>
    if c = sep then [] :: splitOnChar sep rest
    else
      match splitOnChar sep rest with
      | [] => [[c]]
      | h :: t => (c :: h) :: t

/-- Break a list at the first occurrence of sep, dropping the separator. -/
def breakAtChar (sep : Char) : List Char → Option (List Char × List Char)
  | [] => none
  | c :: rest =>
    if c = sep then some ([], rest)
    else (breakAtChar sep rest).map (fun p => (c :: p.1, p.2))

/-- Python str.split(sep, maxsplit): at most the given number of splits. -/
def splitCharLimit (sep : Char) : Nat → List Char → List (List Char)
  | 0, l => [l]
  | k + 1, l =>
    match breakAtChar sep l with
    | none => [l]
    | some (a, b) => a :: splitCharLimit sep k b

/-- Does the pattern begin the list? -/
def beginsWith : List Char → List Char → Bool
  | [], _ => true
  | _ :: _, [] => false
  | p :: ps, c :: cs => p = c && beginsWith ps cs

/-- Python str.startswith. -/
def pyStartsWith (s pre : String) : Bool := beginsWith pre.data s.data

/-- Decimal digit character. -/
def digitChar : Nat → Char
  | 0 => '0' | 1 => '1' | 2 => '2' | 3 => '3' | 4 => '4'
  | 5 => '5' | 6 => '6' | 7 => '7' | 8 => '8' | _ => '9'

/-- Decimal digits of a natural number (fuel-bounded, 10 digits suffice here). -/
def natToStrAux : Nat → Nat → List Char
  | 0, _ => []
  | fuel + 1, n =>
    if n < 10 then [digitChar n]
    else natToStrAux fuel (n / 10) ++ [digitChar (n % 10)]

/-- Python str(n) for a natural number. -/
def natToStr (n : Nat) : String := String.mk (natToStrAux 10 n)

/-- Python percent-formatting of an integer, zero padded to the given width. -/
def padInt (w n : Nat) : String :=
  String.mk (List.replicate (w - (natToStrAux 10 n).length) '0' ++ natToStrAux 10 n)

/-- Value of an all-digit character list. -/
def digitsValAux : List Char → Nat → Option Nat
  | [], acc => some acc
  | c :: t, acc => if c.isDigit then digitsValAux t (acc * 10 + (c.toNat - 48)) else none

/-- Value of a nonempty all-digit character list. -/
def digitsVal : List Char → Option Nat
  | [] => none
  | l => digitsValAux l 0

/-- Python int() on a string: optional sign then decimal digits, none models
the ValueError raised on malformed input. -/
def pyInt (s : String) : Option Int :=
  match s.data with
  | '-' :: rest => (digitsVal rest).map (fun n => -(n : Int))
  | '+' :: rest => (digitsVal rest).map (fun n => (n : Int))
  | l => (digitsVal l).map (fun n => (n : Int))

/-! data.py -/

/-- data.py lines 21 and 22: row[0][:4] + "-" + row[0][4:6] + "-" + row[0][6:8]. -/
def transformDate (s : String) : String :=
  strSlice s 0 4 ++ ("-" ++ (strSlice s 4 6 ++ ("-" ++ strSlice s 6 8)))

/-- The loop of data.py whiteList: append the first field of each row; a row
with no field raises IndexError, caught by the bare except, which returns the
list read so far together with a warning (the Bool component). -/
def collectFirst : List (List String) → List String → List String × Bool
  | [], acc => (acc, false)
  | row :: rest, acc =>
    match row with
    | [] => (acc, true)
    | x :: _ => collectFirst rest (acc ++ [x])

/-- data.py whiteList(): the input none stands for a missing or unreadable
whiteList.csv, in which case the bare except prints a warning and the empty
list is returned; the Bool component records whether the warning was printed. -/
def whiteList : Option (List (List String)) → List String × Bool
  | none => ([], true)
  | some rows => collectFirst rows []

/-- One iteration of the data.py lastWeekControl loop (lines 21 to 28):
some true when the account of the row is flagged (printed), some false when
the row is passed over, none when the iteration raises (missing positional
field or a slice that int() cannot parse). -/
def rowCheck (wList : List String) (row : List String) : Option Bool :=
  match row.get? 0, row.get? 10 with
  | some f0, some f10 =>
    let todayDate := transformDate f0
    let lastLoginDate := transformDate f10
    if todayDate = "date--" then some false
    else
      match pyInt (strSlice todayDate 0 4), pyInt (strSlice lastLoginDate 0 4),
            pyInt (strSlice todayDate 5 7), pyInt (strSlice lastLoginDate 5 7),
            pyInt (strSlice todayDate 8 10), pyInt (strSlice lastLoginDate 8 10) with
      | some ty, some ly, some tm, some lm, some td, some ld =>
        some ((decide (1 ≤ ty - ly) || decide (1 ≤ tm - lm) || decide (6 ≤ td - ld))
              && !(decide (((row.get? 2).getD "") ∈ wList)))
      | _, _, _, _, _, _ => none
  | _, _ => none

/-- The row loop of data.py lastWeekControl: the flagged accounts in order,
none when some iteration raises. -/
def scanRows (wList : List String) : List (List String) → Option (List String)
  | [] => some []
  | row :: rest =>
    match rowCheck wList row with
    | none => none
    | some b =>
      match scanRows wList rest with
      | none => none
      | some flagged => some (if b then ((row.get? 2).getD "") :: flagged else flagged)

/-- data.py lastWeekControl: load the allow list, then scan the report rows;
the second argument is the contents of whiteList.csv (none when missing). -/
def lastWeekControl (fileRows : List (List String)) (wlFile : Option (List (List String))) :
    Option (List String) :=
  scanRows (whiteList wlFile).1 fileRows

/-! reporting.py -/

/-- reporting.py ReportRunner._AUTH_URL. -/
def AUTH_URL : String := "https://www.google.com/accounts/ClientLogin"

/-- reporting.py ReportRunner._REPORTING_URL. -/
def REPORTING_URL : String := "https://www.google.com/hosted/services/v1.0/reports/ReportingData"

/-- reporting.py ReportRequest attributes. -/
structure ReportRequest where
  type : Option String
  token : Option String
  domain : Option String
  date : Option String
  report_type : Option String
  report_name : Option String
deriving DecidableEq

/-- reporting.py ReportRequest.__init__ defaults. -/
def ReportRequest.init : ReportRequest :=
  { type := some "Report", token := none, domain := none, date := none,
    report_type := some "daily", report_name := none }

/-- Python "%s" interpolation of a possibly-None attribute. -/
def pyStrOpt : Option String → String
  | none => "None"
  | some s => s

/-- reporting.py ReportRequest.ToXml: _REQUEST_TEMPLATE with every attribute
interpolated by percent-formatting. -/
def ReportRequest.ToXml (r : ReportRequest) : String :=
  "<?xml version=\"1.0\" encoding=\"UTF-8\"?>\n<rest xmlns=\"google:accounts:rest:protocol\"\n    xmlns:xsi=\"http://www.w3.org/2001/XMLSchema-instance\">\n  <type>" ++
  (pyStrOpt r.type ++ ("</type>\n  <token>" ++
  (pyStrOpt r.token ++ ("</token>\n  <domain>" ++
  (pyStrOpt r.domain ++ ("</domain>\n  <date>" ++
  (pyStrOpt r.date ++ ("</date>\n  <reportType>" ++
  (pyStrOpt r.report_type ++ ("</reportType>\n  <reportName>" ++
  (pyStrOpt r.report_name ++ "</reportName>\n</rest>\n")))))))))))

/-- reporting.py ReportError attributes. -/
structure ReportError where
  status : Option String
  reason : Option String
  extended_message : Option String
  result : Option String
  type : Option String
deriving DecidableEq

/-- Capture of the lazy dot-all group (.*?) up to the next literal <
character; none when no < follows, in which case the overall pattern fails
at this starting position. -/
def upToLt : List Char → Option (List Char)
  | [] => none
  | c :: t => if c = '<' then some [] else (upToLt t).map (fun l => c :: l)

/-- Attempt the regular expression pat(.*?)< at the head of the text, where
pat is a literal. -/
def matchAt (pat : List Char) (s : List Char) : Option (List Char) :=
  if beginsWith pat s then upToLt (s.drop pat.length) else none

/-- re.search scanning: group 1 of the match at the leftmost position where
the whole pattern matches. -/
def searchTagAux (pat : List Char) : List Char → Option (List Char)
  | [] => matchAt pat []
  | c :: rest =>
    match matchAt pat (c :: rest) with
    | some r => some r
    | none => searchTagAux pat rest

/-- Group 1 of re.compile(tag + ">(.*?)<", re.DOTALL).search(s), as used by
the five _PATTERN constants of ReportError. -/
def reSearch (tag : String) (s : String) : Option String :=
  (searchTagAux (tag.data ++ ['>']) s.data).map String.mk

/-- reporting.py ReportError.__init__: every attribute starts as None. -/
def ReportError.empty : ReportError :=
  { status := none, reason := none, extended_message := none, result := none, type := none }

/-- reporting.py ReportError.FromXml: starting from the empty error, each
attribute is assigned in turn from the first match of its pattern, and left
unset when its pattern has no match. -/
def ReportError.FromXml (xml : String) : ReportError :=
  let e0 := ReportError.empty
  let e1 := match reSearch "status" xml with
    | some v => { e0 with status := some v }
    | none => e0
  let e2 := match reSearch "reason" xml with
    | some v => { e1 with reason := some v }
    | none => e1
  let e3 := match reSearch "extendedMessage" xml with
    | some v => { e2 with extended_message := some v }
    | none => e2
  let e4 := match reSearch "result" xml with
    | some v => { e3 with result := some v }
    | none => e3
  match reSearch "type" xml with
  | some v => { e4 with type := some v }
  | none => e4

/-- What a ConnectionError carries: the url named in its message and the
human-readable cause. -/
structure ConnInfo where
  url : String
  cause : String
deriving DecidableEq

/-- Outcome of urllib2.urlopen(url, data).read(): a body, an HTTPError with
a status code, or a URLError with a low-level reason. -/
inductive Transport where
  | success (body : String)
  | httpError (code : Nat)
  | urlError (reason : String)
deriving DecidableEq

/-- reporting.py ReportRunner.__PostUrl: note that both except branches name
ReportRunner._AUTH_URL in the ConnectionError they raise, not the url
parameter that was posted to. -/
def PostUrl (url : String) (t : Transport) : Except ConnInfo String :=
  match t with
  | .success body => .ok body
  | .httpError code => .error { url := AUTH_URL, cause := "HTTP Response Code: " ++ natToStr code }
  | .urlError reason => .error { url := AUTH_URL, cause := reason }

/-- reporting.py ReportRunner attributes (set to None by __init__). -/
structure ReportRunner where
  admin_email : Option String
  admin_password : Option String
  domain : Option String
  token : Option String
deriving DecidableEq

/-- Ways reporting.py Login can fail: a ConnectionError from the post, the
explicit LoginError, or the ValueError raised by unpacking a line that does
not split into exactly two parts. -/
inductive LoginFailure where
  | conn (info : ConnInfo)
  | loginError
  | valueError
deriving DecidableEq

/-- Result of reporting.py Login. -/
inductive LoginOutcome where
  | ok
  | err (f : LoginFailure)
deriving DecidableEq

/-- The loop of reporting.py Login (lines 239 to 244): split each line on =
with maxsplit 2 and unpack into exactly (name, value); a line that does not
unpack raises ValueError; the first SID line assigns the token and returns;
falling off the loop raises LoginError.  The returned runner is the state of
self when the call ends, however it ends. -/
def loginLoop (r : ReportRunner) : List (List Char) → LoginOutcome × ReportRunner
  | [] => (.err .loginError, r)
  | line :: rest =>
    match splitCharLimit '=' 2 line with
    | [n, v] =>
      if n = "SID".data then (.ok, { r with token := some (String.mk v) })
      else loginLoop r rest
    | _ => (.err .valueError, r)

/-- reporting.py ReportRunner.Login, parametrized by the transport outcome of
posting the credentials to the auth endpoint. -/
def Login (r : ReportRunner) (t : Transport) : LoginOutcome × ReportRunner :=
  match PostUrl AUTH_URL t with
  | .error info => (.err (.conn info), r)
  | .ok body => loginLoop r (splitOnChar '\n' body.data)

/-- Ways reporting.py GetReportData can fail. -/
inductive ReportFailure where
  | conn (info : ConnInfo)
  | report (failure : ReportError)
deriving DecidableEq

/-- reporting.py ReportRunner.GetReportData, parametrized by the transport
outcome of posting the serialized request to the reporting endpoint. -/
def GetReportData (report_request : ReportRequest) (t : Transport) : Except ReportFailure String :=
  match PostUrl REPORTING_URL t with
  | .error info => .error (.conn info)
  | .ok resp =>
    if pyStartsWith resp "<?xml" then .error (.report (ReportError.FromXml resp))
    else .ok resp

/-- Index of the last occurrence of the character (Python str.rfind, with
none for the -1 result). -/
def rfindChar (c0 : Char) : List Char → Option Nat
  | [] => none
  | c :: rest =>
    match rfindChar c0 rest with
    | some i => some (i + 1)
    | none => if c = c0 then some 0 else none

/-- reporting.py ReportRunner.GetAdminEmailDomain, on the admin_email
attribute. -/
def GetAdminEmailDomain (admin_email : Option String) : Option String :=
  match admin_email with
  | none => none
  | some s =>
    match rfindChar '@' s.data with
    | some i => some (String.mk (s.data.drop (i + 1)))
    | none => none

/-- The spec wording for GetAdminEmailDomain: everything after the last
at-sign, absent when the address has none. -/
def afterLastAt : List Char → Option (List Char)
  | [] => none
  | c :: rest =>
    match afterLastAt rest with
    | some r => some r
    | none => if c = '@' then some rest else none

/-- The spec wording for GetAdminEmailDomain, as a String function. -/
def adminDomainSpec (s : String) : Option String := (afterLastAt s.data).map String.mk

/-- Gregorian leap year. -/
def isLeap (y : Nat) : Bool := (y % 4 == 0 && y % 100 != 0) || y % 400 == 0

/-- Days in the year. -/
def daysInYear (y : Nat) : Nat := if isLeap y then 366 else 365

/-- Month lengths, starting at January. -/
def monthLengths (leap : Bool) : List Nat :=
  [31, if leap then 29 else 28, 31, 30, 31, 30, 31, 31, 30, 31, 30, 31]

/-- Consume whole years of days starting from 1970 (fuel-bounded structural
recursion; fuel at least the day count never runs out, because each step
consumes at least 365 days). -/
def stepYear : Nat → Nat → Nat → Nat × Nat
  | 0, y, d => (y, d)
  | fuel + 1, y, d =>
    if daysInYear y ≤ d then stepYear fuel (y + 1) (d - daysInYear y) else (y, d)

/-- Consume whole months of days: 1-based month and remaining 0-based day. -/
def stepMonth : List Nat → Nat → Nat × Nat
  | [], d => (1, d)
  | m :: ms, d =>
    if d < m then (1, d)
    else
      let r := stepMonth ms (d - m)
      (r.1 + 1, r.2)

/-- The fields of a time.struct_time that the code reads: tm_year, tm_mon,
tm_mday, tm_hour. -/
structure Tm where
  year : Nat
  month : Nat
  day : Nat
  hour : Nat
deriving DecidableEq

/-- time.gmtime on nonnegative epoch seconds, restricted to the fields the
code reads. -/
def gmtime (t : Nat) : Tm :=
  let days := t / 86400
  let rem := t % 86400
  let yr := stepYear (days + 1) 1970 days
  let mo := stepMonth (monthLengths (isLeap yr.1)) yr.2
  { year := yr.1, month := mo.1, day := mo.2 + 1, hour := rem / 3600 }

/-- reporting.py ReportRunner.GetLatestReportDate, with time.time() passed
explicitly as nonnegative epoch seconds (_HOURS = 3600, _DAYS = 86400). -/
def GetLatestReportDate (now : Nat) : String :=
  let pst_time := gmtime (now - 8 * 3600)
  let latest :=
    if pst_time.hour < 12 then gmtime (now - 8 * 3600 - 2 * 86400)
    else gmtime (now - 8 * 3600 - 1 * 86400)
  padInt 4 latest.year ++ "-" ++ padInt 2 latest.month ++ "-" ++ padInt 2 latest.day

/-- Hour-of-day of an instant, for stating the claim about
GetLatestReportDate. -/
def gmHour (t : Nat) : Nat := (gmtime t).hour

/-- Calendar date of an instant formatted YYYY-MM-DD, for stating the claim
about GetLatestReportDate. -/
def dateStrOf (t : Nat) : String :=
  padInt 4 (gmtime t).year ++ "-" ++ padInt 2 (gmtime t).month ++ "-" ++ padInt 2 (gmtime t).day

/-- The needle occurs contiguously in the haystack. -/
def containsSub (hay needle : String) : Prop := ∃ a b : String, hay = a ++ (needle ++ b)

/-- The portion of _REQUEST_TEMPLATE before the type tag. -/
def xmlHeader : String :=
  "<?xml version=\"1.0\" encoding=\"UTF-8\"?>\n<rest xmlns=\"google:accounts:rest:protocol\"\n    xmlns:xsi=\"http://www.w3.org/2001/XMLSchema-instance\">\n  "

/-! Theorems -/

/-- String concatenation is associative. -/
theorem strApp_assoc (a b c : String) : (a ++ b) ++ c = a ++ (b ++ c) := by
  cases a with
  | mk x =>
    cases b with
    | mk y =>
      cases c with
      | mk z =>
        show String.mk ((x ++ y) ++ z) = String.mk (x ++ (y ++ z))
        rw [List.append_assoc]

/-- Claim C1 (evaluation at the failing input): a transport-level failure
while posting to the reporting endpoint produces a ConnectionError that
names the authentication endpoint, because both except branches of
ReportRunner.__PostUrl hard-code _AUTH_URL; the same failure during Login
names the authentication endpoint, which there is the endpoint contacted. -/
theorem C1_connection_error_url :
    GetReportData ReportRequest.init (.httpError 500) =
      .error (.conn { url := AUTH_URL, cause := "HTTP Response Code: 500" })
    ∧ Login { admin_email := some "a@b.com", admin_password := some "pw",
              domain := none, token := none } (.httpError 403) =
      (.err (.conn { url := AUTH_URL, cause := "HTTP Response Code: 403" }),
       { admin_email := some "a@b.com", admin_password := some "pw",
         domain := none, token := none })
    ∧ GetReportData ReportRequest.init (.urlError "timed out") =
      .error (.conn { url := AUTH_URL, cause := "timed out" })
    ∧ decide (AUTH_URL = REPORTING_URL) = false := by
  refine ⟨rfl, rfl, rfl, by decide⟩

/-- Claim C2 (evaluation at the failing input): the auth response body
"LSID=xyz\n" contains no line whose key is SID, yet Login fails with the
ValueError of unpacking the empty trailing line rather than with LoginError;
the body "SID=abc123\nLSID=xyz\n" does yield the token "abc123". -/
theorem C2_login_parse :
    Login { admin_email := none, admin_password := none, domain := none, token := none }
        (.success "LSID=xyz\n") =
      (.err .valueError,
       { admin_email := none, admin_password := none, domain := none, token := none })
    ∧ (Login { admin_email := none, admin_password := none, domain := none, token := none }
        (.success "SID=abc123\nLSID=xyz\n")).2.token = some "abc123"
    ∧ decide (LoginFailure.valueError = LoginFailure.loginError) = false := by
  refine ⟨rfl, rfl, by decide⟩

/-- Claim C8: with whiteList.csv missing or unreadable, whiteList returns the
empty list with the warning printed (no exception escapes the bare except),
and the scan over any report rows runs with zero exclusions. -/
theorem C8_missing_allowlist :
    whiteList none = ([], true)
    ∧ (∀ rows : List (List String), lastWeekControl rows none = scanRows [] rows) :=
  ⟨rfl, fun _ => rfl⟩

/-- Claim C6: GetLatestReportDate shifts the current instant back 8 hours and
formats the calendar date of two days earlier when the shifted hour-of-day is
below 12, of one day earlier otherwise; at 19:00 UTC on 2024-03-10 it
returns 2024-03-08 and at 21:00 UTC on 2024-03-10 it returns 2024-03-09. -/
theorem C6_latest_report_date :
    (∀ now : Nat,
      GetLatestReportDate now =
        (if gmHour (now - 8 * 3600) < 12 then dateStrOf (now - 8 * 3600 - 2 * 86400)
         else dateStrOf (now - 8 * 3600 - 1 * 86400)))
    ∧ GetLatestReportDate 1710097200 = "2024-03-08"
    ∧ GetLatestReportDate 1710104400 = "2024-03-09" := by
  refine ⟨?_, by decide, by decide⟩
  intro now
  by_cases h : (gmtime (now - 8 * 3600)).hour < 12 <;>
    simp [GetLatestReportDate, gmHour, dateStrOf, h]

/-- The net effect of the sequential assignments of FromXml: each attribute
holds the first match of its pattern, none when the pattern has no match. -/
theorem FromXml_eq (xml : String) :
    ReportError.FromXml xml =
      { status := reSearch "status" xml, reason := reSearch "reason" xml,
        extended_message := reSearch "extendedMessage" xml,
        result := reSearch "result" xml, type := reSearch "type" xml } := by
  unfold ReportError.FromXml ReportError.empty
  cases reSearch "status" xml <;> cases reSearch "reason" xml <;>
    cases reSearch "extendedMessage" xml <;> cases reSearch "result" xml <;>
    cases reSearch "type" xml <;> rfl

/-- Claim C3: a reporting-endpoint response that begins with the XML
declaration prefix fails with a ReportError whose five attributes are the
first matches of the corresponding tag patterns (none when a pattern has no
match); any other response is returned verbatim; the example error document
decodes to status 500 and reason Quota with the other three attributes
unset. -/
theorem C3_report_error_decode :
    (∀ (req : ReportRequest) (resp : String),
      GetReportData req (.success resp) =
        (if pyStartsWith resp "<?xml" then
          .error (.report { status := reSearch "status" resp, reason := reSearch "reason" resp,
                            extended_message := reSearch "extendedMessage" resp,
                            result := reSearch "result" resp, type := reSearch "type" resp })
         else .ok resp))
    ∧ GetReportData ReportRequest.init
        (.success "<?xml version=\"1.0\" encoding=\"UTF-8\"?>\n<AppsForYourDomainErrors>\n  <status>500</status>\n  <reason>Quota</reason>\n</AppsForYourDomainErrors>") =
      .error (.report { status := some "500", reason := some "Quota",
                        extended_message := none, result := none, type := none })
    ∧ GetReportData ReportRequest.init (.success "date,activity,alice\n20240310,login,alice") =
      .ok "date,activity,alice\n20240310,login,alice" := by
  refine ⟨?_, rfl, rfl⟩
  intro req resp
  unfold GetReportData
  cases hb : pyStartsWith resp "<?xml" <;> simp [PostUrl, hb, FromXml_eq]

/-- Python rfind of the at-sign followed by slicing behind it agrees with
taking everything after the last at-sign. -/
theorem rfind_afterLast (l : List Char) :
    (match rfindChar '@' l with
     | some i => some (l.drop (i + 1))
     | none => none) = afterLastAt l := by
  induction l with
  | nil => rfl
  | cons c t ih =>
    show (match rfindChar '@' (c :: t) with
      | some i => some ((c :: t).drop (i + 1))
      | none => none) = afterLastAt (c :: t)
    cases h : rfindChar '@' t with
    | some i =>
      rw [h] at ih
      simp only [rfindChar, afterLastAt, h, ← ih, List.drop_succ_cons]
    | none =>
      rw [h] at ih
      by_cases hc : c = '@' <;> simp only [rfindChar, afterLastAt, h, ← ih, hc] <;> simp

/-- Claim C9: GetAdminEmailDomain returns the substring after the last
at-sign when one is present and None otherwise; in particular a@b.com gives
b.com and noat gives None. -/
theorem C9_admin_email_domain :
    (∀ s : String, GetAdminEmailDomain (some s) = adminDomainSpec s)
    ∧ GetAdminEmailDomain (some "a@b.com") = some "b.com"
    ∧ GetAdminEmailDomain (some "noat") = none := by
  refine ⟨?_, by decide, by decide⟩
  intro s
  show (match rfindChar '@' s.data with
    | some i => some (String.mk (s.data.drop (i + 1)))
    | none => none) = (afterLastAt s.data).map String.mk
  rw [← rfind_afterLast s.data]
  cases h : rfindChar '@' s.data <;> simp

/-- The Login line loop either succeeds having changed only the token
attribute, or fails leaving the runner exactly as it was. -/
theorem loginLoop_frame (r : ReportRunner) (ls : List (List Char)) :
    (match loginLoop r ls with
     | (.ok, r2) => ∃ v, r2 = { r with token := some v }
     | (.err _, r2) => r2 = r) := by
  induction ls with
  | nil => rfl
  | cons line rest ih =>
    show (match (match splitCharLimit '=' 2 line with
      | [n, v] =>
        if n = "SID".data then (LoginOutcome.ok, { r with token := some (String.mk v) })
        else loginLoop r rest
      | _ => (.err .valueError, r)) with
      | (.ok, r2) => ∃ v, r2 = { r with token := some v }
      | (.err _, r2) => r2 = r)
    cases hs : splitCharLimit '=' 2 line with
    | nil => rfl
    | cons n t =>
      cases t with
      | nil => rfl
      | cons v t2 =>
        cases t2 with
        | nil =>
          by_cases hn : n = "SID".data
          · simp only [hn, if_pos rfl]
            exact ⟨String.mk v, rfl⟩
          · simp only [if_neg hn]
            exact ih
        | cons w t3 => rfl

/-- Claim C10: Login modifies only the token attribute of the runner: on
success the runner is the old one with token set to some value, and on any
failure (connection error, LoginError, or the unpacking ValueError) the
runner is exactly as it was before the call. -/
theorem C10_login_frame :
    ∀ (r : ReportRunner) (t : Transport),
      (match Login r t with
       | (.ok, r2) => ∃ v, r2 = { r with token := some v }
       | (.err _, r2) => r2 = r) := by
  intro r t
  cases t with
  | success body => exact loginLoop_frame r (splitOnChar '\n' body.data)
  | httpError code => rfl
  | urlError reason => rfl

/-- Claim C4: on a row whose staleness check runs (the sentinel does not
match and all six date slices parse), the account in field 2 is flagged
exactly when some component-wise difference reaches its threshold and the
account is not allow-listed; with allow list bob, the alice row dated
20240310 with last login 20240301 is flagged and the bob row with last login
20240101 is not. -/
theorem C4_staleness_flag :
    (∀ (wList row : List String) (f0 f2 f10 : String) (ty ly tm lm td ld : Int),
      row.get? 0 = some f0 → row.get? 2 = some f2 → row.get? 10 = some f10 →
      transformDate f0 ≠ "date--" →
      pyInt (strSlice (transformDate f0) 0 4) = some ty →
      pyInt (strSlice (transformDate f10) 0 4) = some ly →
      pyInt (strSlice (transformDate f0) 5 7) = some tm →
      pyInt (strSlice (transformDate f10) 5 7) = some lm →
      pyInt (strSlice (transformDate f0) 8 10) = some td →
      pyInt (strSlice (transformDate f10) 8 10) = some ld →
      (rowCheck wList row = some true ↔
        ((1 ≤ ty - ly ∨ 1 ≤ tm - lm ∨ 6 ≤ td - ld) ∧ f2 ∉ wList)))
    ∧ rowCheck ["bob"] ["20240310", "x", "alice", "x", "x", "x", "x", "x", "x", "x", "20240301"] =
        some true
    ∧ rowCheck ["bob"] ["20240310", "x", "bob", "x", "x", "x", "x", "x", "x", "x", "20240101"] =
        some false := by
  refine ⟨?_, rfl, rfl⟩
  intro wList row f0 f2 f10 ty ly tm lm td ld h0 h2 h10 hne hy1 hy2 hy3 hy4 hy5 hy6
  unfold rowCheck
  rw [h0, h10]
  simp only [if_neg hne, hy1, hy2, hy3, hy4, hy5, hy6, h2, Option.getD_some,
    Option.some.injEq, Bool.and_eq_true, Bool.or_eq_true, decide_eq_true_eq,
    Bool.not_eq_true', decide_eq_false_iff_not]
  tauto

/-- Claim C4 witness: the alice row instantiates the general flagging rule. -/
theorem C4_staleness_flag_witness :
    rowCheck ["bob"] ["20240310", "x", "alice", "x", "x", "x", "x", "x", "x", "x", "20240301"] =
        some true ↔
      ((1 ≤ (2024 : Int) - 2024 ∨ 1 ≤ (3 : Int) - 3 ∨ 6 ≤ (10 : Int) - 1) ∧
        "alice" ∉ ["bob"]) :=
  C4_staleness_flag.1 ["bob"]
    ["20240310", "x", "alice", "x", "x", "x", "x", "x", "x", "x", "20240301"]
    "20240310" "alice" "20240301" 2024 2024 3 3 10 1
    rfl rfl rfl (by decide) rfl rfl rfl rfl rfl rfl

/-- The raw field rendered with dashes inserted, written at the level of
character lists. -/
theorem transformDate_data (l : List Char) :
    (transformDate (String.mk l)).data =
      l.take 4 ++ '-' :: ((l.drop 4).take 2 ++ '-' :: (l.drop 6).take 2) := rfl

/-- Claim C5: the sentinel comparison is against the transformed dashed
string, so the staleness check is skipped exactly when the raw field 0 is
the four-character string date; a row whose field 0 is date is passed over
whatever the rest of the row holds. -/
theorem C5_sentinel :
    (∀ s : String, transformDate s = "date--" ↔ s = "date")
    ∧ (∀ (wList : List String) (a b c d e f g h i j : String),
        rowCheck wList ("date" :: a :: b :: c :: d :: e :: f :: g :: h :: i :: j :: []) =
          some false) := by
  constructor
  · intro s
    constructor
    · intro hEq
      obtain ⟨l⟩ := s
      have hd : (transformDate (String.mk l)).data = ['d', 'a', 't', 'e', '-', '-'] := by
        rw [hEq]
      rw [transformDate_data] at hd
      rcases l with _ | ⟨a, _ | ⟨b, _ | ⟨c, _ | ⟨d, _ | ⟨e, t⟩⟩⟩⟩⟩ <;> simp at hd
      obtain ⟨rfl, rfl, rfl, rfl⟩ := hd
      rfl
    · intro hEq
      rw [hEq]
      rfl
  · intro wList a b c d e f g h i j
    rfl

/-- Data of a concatenation. -/
theorem strData_append (a b : String) : (a ++ b).data = a.data ++ b.data := by
  cases a with
  | mk x => cases b with
    | mk y => rfl

/-- ToXml written with every tag of the template as its own chunk. -/
theorem toXml_split (r : ReportRequest) :
    r.ToXml =
      xmlHeader ++ ("<type>" ++ (pyStrOpt r.type ++ ("</type>" ++ ("\n  " ++
      ("<token>" ++ (pyStrOpt r.token ++ ("</token>" ++ ("\n  " ++
      ("<domain>" ++ (pyStrOpt r.domain ++ ("</domain>" ++ ("\n  " ++
      ("<date>" ++ (pyStrOpt r.date ++ ("</date>" ++ ("\n  " ++
      ("<reportType>" ++ (pyStrOpt r.report_type ++ ("</reportType>" ++ ("\n  " ++
      ("<reportName>" ++ (pyStrOpt r.report_name ++ ("</reportName>" ++
      "\n</rest>\n"))))))))))))))))))))))) := by
  apply String.ext
  simp only [ReportRequest.ToXml, xmlHeader, strData_append, List.append_assoc,
    List.cons_append, List.nil_append]

/-- Claim C7: ToXml of a fully populated request contains each field's value
verbatim inside its named tag; it is deterministic (equal field values give
identical output); and an unset field renders as the literal string None
inside its tag. -/
theorem C7_toxml :
    (∀ (t tk d dt rt rn : String),
      containsSub (ReportRequest.ToXml ⟨some t, some tk, some d, some dt, some rt, some rn⟩)
        ("<type>" ++ (t ++ "</type>")) ∧
      containsSub (ReportRequest.ToXml ⟨some t, some tk, some d, some dt, some rt, some rn⟩)
        ("<token>" ++ (tk ++ "</token>")) ∧
      containsSub (ReportRequest.ToXml ⟨some t, some tk, some d, some dt, some rt, some rn⟩)
        ("<domain>" ++ (d ++ "</domain>")) ∧
      containsSub (ReportRequest.ToXml ⟨some t, some tk, some d, some dt, some rt, some rn⟩)
        ("<date>" ++ (dt ++ "</date>")) ∧
      containsSub (ReportRequest.ToXml ⟨some t, some tk, some d, some dt, some rt, some rn⟩)
        ("<reportType>" ++ (rt ++ "</reportType>")) ∧
      containsSub (ReportRequest.ToXml ⟨some t, some tk, some d, some dt, some rt, some rn⟩)
        ("<reportName>" ++ (rn ++ "</reportName>")))
    ∧ (∀ r1 r2 : ReportRequest,
        r1.type = r2.type → r1.token = r2.token → r1.domain = r2.domain →
        r1.date = r2.date → r1.report_type = r2.report_type →
        r1.report_name = r2.report_name →
        ReportRequest.ToXml r1 = ReportRequest.ToXml r2)
    ∧ (∀ (t d dt rt rn : String),
        containsSub (ReportRequest.ToXml ⟨some t, none, some d, some dt, some rt, some rn⟩)
          ("<token>" ++ ("None" ++ "</token>"))) := by
  refine ⟨?_, ?_, ?_⟩
  · intro t tk d dt rt rn
    refine ⟨⟨xmlHeader,
        "\n  " ++ ("<token>" ++ (tk ++ ("</token>" ++ ("\n  " ++ ("<domain>" ++ (d ++
        ("</domain>" ++ ("\n  " ++ ("<date>" ++ (dt ++ ("</date>" ++ ("\n  " ++
        ("<reportType>" ++ (rt ++ ("</reportType>" ++ ("\n  " ++ ("<reportName>" ++
        (rn ++ ("</reportName>" ++ "\n</rest>\n"))))))))))))))))))), ?_⟩,
      ⟨xmlHeader ++ ("<type>" ++ (t ++ ("</type>" ++ "\n  "))),
        "\n  " ++ ("<domain>" ++ (d ++ ("</domain>" ++ ("\n  " ++ ("<date>" ++ (dt ++
        ("</date>" ++ ("\n  " ++ ("<reportType>" ++ (rt ++ ("</reportType>" ++ ("\n  " ++
        ("<reportName>" ++ (rn ++ ("</reportName>" ++ "\n</rest>\n"))))))))))))))), ?_⟩,
      ⟨xmlHeader ++ ("<type>" ++ (t ++ ("</type>" ++ ("\n  " ++ ("<token>" ++ (tk ++
        ("</token>" ++ "\n  "))))))),
        "\n  " ++ ("<date>" ++ (dt ++ ("</date>" ++ ("\n  " ++ ("<reportType>" ++ (rt ++
        ("</reportType>" ++ ("\n  " ++ ("<reportName>" ++ (rn ++ ("</reportName>" ++
        "\n</rest>\n"))))))))))), ?_⟩,
      ⟨xmlHeader ++ ("<type>" ++ (t ++ ("</type>" ++ ("\n  " ++ ("<token>" ++ (tk ++
        ("</token>" ++ ("\n  " ++ ("<domain>" ++ (d ++ ("</domain>" ++ "\n  "))))))))))),
        "\n  " ++ ("<reportType>" ++ (rt ++ ("</reportType>" ++ ("\n  " ++
        ("<reportName>" ++ (rn ++ ("</reportName>" ++ "\n</rest>\n"))))))), ?_⟩,
      ⟨xmlHeader ++ ("<type>" ++ (t ++ ("</type>" ++ ("\n  " ++ ("<token>" ++ (tk ++
        ("</token>" ++ ("\n  " ++ ("<domain>" ++ (d ++ ("</domain>" ++ ("\n  " ++
        ("<date>" ++ (dt ++ ("</date>" ++ "\n  "))))))))))))))),
        "\n  " ++ ("<reportName>" ++ (rn ++ ("</reportName>" ++ "\n</rest>\n"))), ?_⟩,
      ⟨xmlHeader ++ ("<type>" ++ (t ++ ("</type>" ++ ("\n  " ++ ("<token>" ++ (tk ++
        ("</token>" ++ ("\n  " ++ ("<domain>" ++ (d ++ ("</domain>" ++ ("\n  " ++
        ("<date>" ++ (dt ++ ("</date>" ++ ("\n  " ++ ("<reportType>" ++ (rt ++
        ("</reportType>" ++ "\n  "))))))))))))))))))),
        "\n</rest>\n", ?_⟩⟩ <;>
      (rw [toXml_split]; apply String.ext;
       simp only [pyStrOpt, xmlHeader, strData_append, List.append_assoc,
         List.cons_append, List.nil_append])
  · intro r1 r2 h1 h2 h3 h4 h5 h6
    cases r1
    cases r2
    dsimp only at h1 h2 h3 h4 h5 h6
    subst h1 h2 h3 h4 h5 h6
    rfl
  · intro t d dt rt rn
    refine ⟨xmlHeader ++ ("<type>" ++ (t ++ ("</type>" ++ "\n  "))),
      "\n  " ++ ("<domain>" ++ (d ++ ("</domain>" ++ ("\n  " ++ ("<date>" ++ (dt ++
      ("</date>" ++ ("\n  " ++ ("<reportType>" ++ (rt ++ ("</reportType>" ++ ("\n  " ++
      ("<reportName>" ++ (rn ++ ("</reportName>" ++ "\n</rest>\n"))))))))))))))), ?_⟩
    rw [toXml_split]
    apply String.ext
    simp only [pyStrOpt, xmlHeader, strData_append, List.append_assoc,
      List.cons_append, List.nil_append]

/-- Claim C7 witness: the containment and determinism statements applied at a
concrete fully populated request. -/
theorem C7_toxml_witness :
    containsSub (ReportRequest.ToXml ⟨some "Report", some "tok", some "dom",
        some "2024-03-08", some "daily", some "accounts"⟩)
      ("<token>" ++ ("tok" ++ "</token>"))
    ∧ ReportRequest.ToXml ⟨some "Report", some "tok", some "dom",
        some "2024-03-08", some "daily", some "accounts"⟩ =
      ReportRequest.ToXml ⟨some "Report", some "tok", some "dom",
        some "2024-03-08", some "daily", some "accounts"⟩ :=
  ⟨(C7_toxml.1 "Report" "tok" "dom" "2024-03-08" "daily" "accounts").2.1,
   C7_toxml.2.1 ⟨some "Report", some "tok", some "dom",
       some "2024-03-08", some "daily", some "accounts"⟩
     ⟨some "Report", some "tok", some "dom", some "2024-03-08", some "daily",
       some "accounts"⟩ rfl rfl rfl rfl rfl rfl⟩
